import Mathlib

/-!
# Verification of the bonghwa disaster-alert relay gateway

Shallow embedding, in Lean 4, of the core logic of the two-service
disaster-alert relay (central-service "CS" talking TCP/CAP-XML to the
government CAS endpoint, external-service "ES" talking HTTP/WebSocket to
subscriber systems), together with proofs and refutations of the frozen
specification claims.

Each definition mirrors one function of the JavaScript source; the source
file and function are named in the doc comment.  Database tables are
modelled as lists of rows, transactions as a staged change set that a
commit applies and a rollback discards, and the broker/TCP side effects as
explicit event traces.
-/

namespace Bonghwa

/-! ## Configuration constants (central-service/src/config/index.js and
external-service/src/config/index.js).  Both sides configure
`MAX_RETRIES = 3`; the protocol header is 16 bytes, data format 1 (XML),
and `MAX_BODY_LENGTH = 20 * 1024 * 1024`. -/

def MAX_RETRIES : Nat := 3

def HEADER_LENGTH : Nat := 16

def DATA_FORMAT : Nat := 1

def MAX_BODY_LENGTH : Nat := 20 * 1024 * 1024

/-! ## responseUtils.js (`src/unnamed/part_007`)

The typed error classes thrown by the inbound disaster pipeline, and
`_mapErrorToResponseCode`, which maps an optional error to the
`(resultCode, resultText, noteCode)` triple placed in the
`ETS_CNF_DIS_INFO` reply. -/

namespace ResponseUtils

/-- The error classes of `responseUtils.js`: `ValidationError`,
`ProfileError`, `DuplicateMessageError`, `ParsingError`, and the default
branch for any other unexpected error (DB failures etc.). -/
inductive DisasterError
  | validationError
  | profileError
  | duplicateMessageError
  | parsingError
  | otherError
deriving DecidableEq, Repr

/-- The response-code record returned by `_mapErrorToResponseCode`. -/
structure ResponseCode where
  resultCode : String
  resultText : String
  noteCode : String
deriving DecidableEq, Repr

/-- `_mapErrorToResponseCode` (responseUtils.js lines 59-80): no error
maps to `200 / OK / 000`; `ValidationError` to `400 / Bad Request / 210`;
`ProfileError` to `400 / Bad Request / 220`; `DuplicateMessageError` to
`400 / Bad Request / 300`; `ParsingError` and every other error to
`500 / Internal Server Error / 810`. -/
def mapErrorToResponseCode : Option DisasterError → ResponseCode
  | none => ⟨"200", "OK", "000"⟩
  | some .validationError => ⟨"400", "Bad Request", "210"⟩
  | some .profileError => ⟨"400", "Bad Request", "220"⟩
  | some .duplicateMessageError => ⟨"400", "Bad Request", "300"⟩
  | some .parsingError => ⟨"500", "Internal Server Error", "810"⟩
  | some .otherError => ⟨"500", "Internal Server Error", "810"⟩

/-- The `<data>` envelope of the `ETS_CNF_DIS_INFO` reply as assembled by
`createCnfDisInfoBuffer` (responseUtils.js lines 89-141): result fields
from `_mapErrorToResponseCode` plus the echoed correlation keys. -/
structure CnfDisInfo where
  resultCode : String
  result : String
  transMsgId : String
  transMsgSeq : Nat
  noteCode : String
deriving DecidableEq, Repr

/-- `createCnfDisInfoBuffer` (responseUtils.js lines 89-141), restricted
to the envelope fields: applies `_mapErrorToResponseCode` and echoes
`transMsgId` / `transMsgSeq` of the received data.  (The CAP `note` field
is `"<noteCode>|<noteMessage>"`; we track the note code.) -/
def createCnfDisInfo (transMsgId : String) (transMsgSeq : Nat)
    (error : Option DisasterError) : CnfDisInfo :=
  let rc := mapErrorToResponseCode error
  ⟨rc.resultCode, rc.resultText, transMsgId, transMsgSeq, rc.noteCode⟩

end ResponseUtils

/-! ## ES report-ingress validator
(`src/external-service/src/api/middlewares/validator.js` and
`disasterTransmitLogRepository.js` in `src/unnamed/part_002`)

`isExistingIdentifier` is the custom validator on
`POST /api/reports/disaster-result`; it calls
`disasterTransmitLogRepository.existsByIdentifier`, whose SQL is
`SELECT 1 FROM disaster_transmit_logs WHERE identifier = $1 LIMIT 1`. -/

namespace Validator

/-- A `disaster_transmit_logs` row, restricted to the columns the
validator path can observe. -/
structure DisasterTransmitRow where
  externalSystemId : Nat
  identifier : String
deriving DecidableEq, Repr

/-- `existsByIdentifier` (disasterTransmitLogRepository.js): true iff some
row of `disaster_transmit_logs` has the given identifier.  The query has
no `external_system_id` condition. -/
def existsByIdentifier (table : List DisasterTransmitRow)
    (identifier : String) : Bool :=
  table.any fun row => row.identifier == identifier

/-- `isExistingIdentifier` (validator.js lines 181-194): the validator
accepts (returns `true`) iff `existsByIdentifier` finds a row; it receives
only the payload's identifier, never the submitting subscriber's id. -/
def isExistingIdentifier (table : List DisasterTransmitRow)
    (identifier : String) : Bool :=
  existsByIdentifier table identifier

/-- What the claim asserts the validator checks: a row for the submitting
subscriber itself.  (Stated from the spec's words, for comparison.) -/
def existsForSubscriber (table : List DisasterTransmitRow)
    (subscriberId : Nat) (identifier : String) : Bool :=
  table.any fun row =>
    row.externalSystemId == subscriberId && row.identifier == identifier

end Validator

/-! ## ES WebSocket session manager
(`src/external-service/src/socket/sessionManager.js`)

`activeSockets` is a JavaScript `Map` from `external_system_id` to the
socket object.  We model the `Map` as an association list in insertion
order (`set` replaces the entry in place, `delete` removes it) and a
socket object by a unique socket id plus its authenticated system id;
JavaScript object identity (`===`) on sockets is modelled by equality of
the unique socket id. -/

namespace SessionManager

/-- An authenticated Socket.IO socket: its unique socket id and the
`external_system_id` it authenticated as (`socket.system.id`). -/
structure Socket where
  sockId : Nat
  systemId : Nat
deriving DecidableEq, Repr

/-- The `activeSockets` map as an association list in insertion order. -/
abbrev SMap := List (Nat × Socket)

/-- `Map.prototype.get`. -/
def mapGet : SMap → Nat → Option Socket
  | [], _ => none
  | e :: t, k => if e.1 = k then some e.2 else mapGet t k

/-- `Map.prototype.set`: replace the entry with the key in place, or
append a new entry. -/
def mapSet : SMap → Nat → Socket → SMap
  | [], k, v => [(k, v)]
  | e :: t, k, v => if e.1 = k then (k, v) :: t else e :: mapSet t k v

/-- `Map.prototype.delete`: remove the entry with the key. -/
def mapDelete : SMap → Nat → SMap
  | [], _ => []
  | e :: t, k => if e.1 = k then t else e :: mapDelete t k

/-- "At most one active socket per subscriber": the map's keys are
pairwise distinct. -/
def KeysNodup (m : SMap) : Prop := (m.map Prod.fst).Nodup

/-- Observable side effects of the session manager, in program order. -/
inductive Event
  | logDisconnected (systemId oldSockId : Nat)
  | forceClose (oldSockId : Nat)
  | mapRemove (systemId : Nat)
  | mapInstall (systemId sockId : Nat)
  | logConnected (systemId sockId : Nat)
deriving DecidableEq, Repr

/-- `addSocket` (sessionManager.js lines 23-61): if a socket is already
mapped for the system id, log a `SOCKET_DISCONNECTED` event for it,
forcibly close it and delete it from the map, then install the new socket
and log `SOCKET_CONNECTED`. -/
def addSocket (m : SMap) (sock : Socket) : SMap × List Event :=
  match mapGet m sock.systemId with
  | some old =>
      (mapSet (mapDelete m sock.systemId) sock.systemId sock,
       [.logDisconnected sock.systemId old.sockId, .forceClose old.sockId,
        .mapRemove sock.systemId, .mapInstall sock.systemId sock.sockId,
        .logConnected sock.systemId sock.sockId])
  | none =>
      (mapSet m sock.systemId sock,
       [.mapInstall sock.systemId sock.sockId,
        .logConnected sock.systemId sock.sockId])

/-- `removeSocket` (sessionManager.js lines 68-113), for an authenticated
socket: delete the map entry only when the currently mapped socket is the
very socket that disconnected; otherwise leave the map unchanged. -/
def removeSocket (m : SMap) (sock : Socket) : SMap :=
  match mapGet m sock.systemId with
  | some s => if s = sock then mapDelete m sock.systemId else m
  | none => m

end SessionManager

/-! ## Outbox row lifecycle states (shared). -/

inductive Status
  | pending
  | sent
  | success
  | failed
deriving DecidableEq, Repr

/-! ## CS outbound report pipeline
(`reliableTransmitService.js` and `reportTransmitWorker.js`, concatenated
into `src/central-service/src/core/services/messageBrokerService.js` and
`src/unnamed/part_006`, plus `reportTransmitLogRepository.js`)

A `report_transmit_logs` row carries `retry_count` (default 0 at insert)
and `report_sequence` (default 1 at insert).  The worker `_run` reads the
rows returned by `findUnprocessedMessages` (`status = 'PENDING'` or stale
`'SENT'`) and passes each row unchanged to
`reliableTransmitService.processMessage`. -/

namespace ReliableTransmit

/-- The report type of a `report_transmit_logs` row. -/
inductive RtType
  | deviceInfo
  | deviceStatus
  | disasterResult
deriving DecidableEq, Repr

/-- A `report_transmit_logs` row (columns used by the send path). -/
structure RtRow where
  id : Nat
  type : RtType
  outboundId : String
  retryCount : Nat
  reportSequence : Nat
  status : Status
deriving DecidableEq, Repr

/-- External conditions of one `processMessage` call: whether the CAS TCP
session is `ACTIVE`, and, for `DISASTER_RESULT` rows, whether the original
`disaster_publish_log` row exists with a valid CAP (`sender`/`sent`). -/
structure CsEnv where
  connected : Bool
  originalCapOk : Bool
deriving DecidableEq, Repr

/-- A frame written to the CAS socket, keyed by the ACK-correlation pair
`(transMsgId = outbound_id, transMsgSeq = report_sequence)`. -/
structure Transmit where
  outboundId : String
  reportSequence : Nat
deriving DecidableEq, Repr

/-- `incrementRetryCountAndReportSequence`
(reportTransmitLogRepository.js lines 51-60):
`SET retry_count = retry_count + 1, report_sequence = report_sequence + 1`.
The repository exports this function but no module of the source ever
calls it — the worker doc comment says the worker increments both before
each attempt, yet `_run` passes rows to `processMessage` unmodified. -/
def incrementRetryCountAndReportSequence (row : RtRow) : RtRow :=
  { row with retryCount := row.retryCount + 1,
             reportSequence := row.reportSequence + 1 }

/-- `processMessage` (reliableTransmitService.js lines 395-514): throw
(and mark the row `FAILED`, with no send) when
`retry_count > MAX_RETRIES`; return unchanged when the session is not
connected; throw (→ `FAILED`) when the `DISASTER_RESULT` original CAP
lookup fails; otherwise build the CAP, write the frame carrying
`(outbound_id, report_sequence)` to the socket and mark the row `SENT`. -/
def processMessage (env : CsEnv) (row : RtRow) : RtRow × List Transmit :=
  if row.retryCount > MAX_RETRIES then
    ({ row with status := .failed }, [])
  else if !env.connected then
    (row, [])
  else if row.type = .disasterResult ∧ !env.originalCapOk then
    ({ row with status := .failed }, [])
  else
    ({ row with status := .sent }, [⟨row.outboundId, row.reportSequence⟩])

/-- `processFailure` (reliableTransmitService.js lines 353-389), run on
ACK timeout or a NACK: skip if the row is already terminal, else set the
row back to `PENDING`.  The function only computes
`nextRetryCount = currentRetryCount + 1` for its log line; the code
comment says incrementing in the database is the worker's job. -/
def processFailure (row : RtRow) : RtRow :=
  if row.status = .success ∨ row.status = .failed then row
  else { row with status := .pending }

/-- One worker-driven delivery attempt followed by an ACK timeout (or a
NACK): the worker (`reportTransmitWorker._run`, `src/unnamed/part_006`
lines 166-194) passes the row as read to `processMessage`; if a frame was
sent, the `T_xmit` timer later fires `processFailure`. -/
def attemptThenFail (env : CsEnv) (row : RtRow) : RtRow × List Transmit :=
  match processMessage env row with
  | (r, []) => (r, [])
  | (r, sends) => (processFailure r, sends)

end ReliableTransmit

/-! ## ES reliable WebSocket delivery
(`reliableTransmitService.js`, concatenated into
`src/external-service/src/core/services/messageBrokerService.js`) -/

namespace EsReliableTransmit

/-- A `disaster_transmit_logs` row (columns used by the send path). -/
structure DtRow where
  id : Nat
  externalSystemId : Nat
  retryCount : Nat
  status : Status
deriving DecidableEq, Repr

/-- `_processMessage` (ES reliableTransmitService.js lines 397-502),
after `findById` re-reads the row: skip if terminal; mark `FAILED`
**without any send** when `retry_count >= MAX_RETRIES`; skip (downgrading
a stale `SENT` to `PENDING`) when the subscriber has no active socket;
otherwise mark `SENT` and emit the `"disaster"` event.  The returned list
holds the ids of rows for which an emit happened. -/
def processMessage (socketConnected : Bool) (row : DtRow) :
    DtRow × List Nat :=
  if row.status = .success ∨ row.status = .failed then
    (row, [])
  else if row.retryCount ≥ MAX_RETRIES then
    ({ row with status := .failed }, [])
  else if !socketConnected then
    (if row.status = .sent then ({ row with status := .pending }, [])
     else (row, []))
  else
    ({ row with status := .sent }, [row.id])

/-- `_processFailure` (ES reliableTransmitService.js lines 329-366): skip
if terminal; else increment `retry_count` in the database, then mark
`FAILED` when the new count exceeds `MAX_RETRIES`, else back to
`PENDING`. -/
def processFailure (row : DtRow) : DtRow :=
  if row.status = .success ∨ row.status = .failed then row
  else
    let r := { row with retryCount := row.retryCount + 1 }
    if row.retryCount + 1 > MAX_RETRIES then { r with status := .failed }
    else { r with status := .pending }

end EsReliableTransmit

/-! ## Broker consumers
(`_consumeReportMessage` in
`src/central-service/src/core/services/messageBrokerService.js` lines
130-266, `_consumeDisasterMessage` in
`src/external-service/src/core/services/messageBrokerService.js` lines
127-258, and the inbox/outbox repositories)

Committed table contents are modelled directly; the work done on the
dedicated transaction client between `BEGIN` and `COMMIT` is staged and
applied only on commit, while any write that goes through the shared pool
commits immediately (autocommit) and is untouched by a `ROLLBACK`. -/

namespace Consumers

/-- An `mq_receive_logs` row. -/
structure MqRow where
  id : Nat
  rawMessage : String
  status : Status
  errorMessage : Option String
deriving DecidableEq, Repr

/-- A `report_transmit_logs` row as inserted by
`reportTransmitLogRepository.create`. -/
structure RtLogRow where
  mqReceiveLogId : Nat
  type : String
  outboundId : String
  externalSystemName : String
  rawMessage : String
deriving DecidableEq, Repr

/-- CS database state seen by the report consumer. -/
structure CsDb where
  nextMqId : Nat
  mqRows : List MqRow
  rtRows : List RtLogRow
deriving DecidableEq, Repr

/-- `mqReceiveLogRepository.updateStatus`: set status and error message of
the row with the given id. -/
def setMqStatus (rows : List MqRow) (i : Nat) (s : Status)
    (err : Option String) : List MqRow :=
  rows.map fun r => if r.id = i then { r with status := s, errorMessage := err } else r

/-- The payload parsed from a `report.external` delivery
(`{type, externalSystemName, rawMessage}`); `none` models a
`JSON.parse` failure. -/
structure ParsedReport where
  type : String
  externalSystemName : String
deriving DecidableEq, Repr

/-- One broker delivery: the raw content, the `x-retry-count` header
(`0` when the header is absent), and its parse result. -/
structure Delivery where
  content : String
  retryCount : Nat
  parsed : Option ParsedReport
deriving DecidableEq, Repr

/-- What the consumer does with the delivery on the channel. -/
inductive BrokerAction
  | ack
  | retryPublish (nextRetryCount : Nat)
  | nackToDlq
deriving DecidableEq, Repr

/-- Database operations of one consumer run, in program order. -/
inductive Op
  | mqInsert (raw : String)
  | txBegin
  | outboxInsert
  | inboxUpdateStaged
  | txCommit
  | txRollback
  | mqFailedUpdate
deriving DecidableEq, Repr

/-- Injected failure point of one consumer run.  `atDisasterCheck` is the
`DISASTER_RESULT` existence check against `disaster_publish_logs`, which
throws inside the transaction before the outbox insert. -/
inductive FailPoint
  | noFailure
  | atInboxInsert
  | atDisasterCheck
  | atOutboxInsert
  | atInboxUpdate
deriving DecidableEq, Repr

/-- Prefix an op trace onto a consumer result. -/
def prependOps (ops : List Op) :
    CsDb × BrokerAction × List Op → CsDb × BrokerAction × List Op
  | (db, a, ops') => (db, a, ops ++ ops')

/-- The shared catch block of `_consumeReportMessage` (lines 217-264):
republish to the retry exchange with `x-retry-count + 1` and ack when
`retryCount < MAX_RETRIES`; otherwise nack to the DLQ and, when the inbox
row exists, mark it `FAILED` (through the pool).  (The sub-branch where
the republish itself throws and the message is nacked instead is not
modelled.) -/
def csCatch (db : CsDb) (mqId : Option Nat) (retryCount : Nat) :
    CsDb × BrokerAction × List Op :=
  if retryCount < MAX_RETRIES then
    (db, .retryPublish (retryCount + 1), [])
  else
    match mqId with
    | some i =>
        ({ db with mqRows := setMqStatus db.mqRows i .failed
                     (some "[Final Failed]") }, .nackToDlq, [.mqFailedUpdate])
    | none => (db, .nackToDlq, [])

/-- `_consumeReportMessage` (CS messageBrokerService.js lines 130-266).
Step 1 inserts the inbox row through the pool.  Step 2 opens a
transaction on a dedicated client, parses the payload, runs the
`DISASTER_RESULT` existence check, then calls
`reportTransmitLogRepository.create` — whose SQL runs on the **pool**,
not on the transaction client, so the outbox row commits immediately —
and finally updates the inbox row to `SUCCESS` on the client and commits.
Any throw rolls back the client's staged work only and enters the catch
block. -/
def consumeReport (db : CsDb) (msg : Delivery) (outboundId : String)
    (fail : FailPoint) : CsDb × BrokerAction × List Op :=
  if fail = .atInboxInsert then
    prependOps [] (csCatch db none msg.retryCount)
  else
    let mqId := db.nextMqId
    let db1 : CsDb := { db with
      nextMqId := mqId + 1,
      mqRows := db.mqRows ++ [⟨mqId, msg.content, .pending, none⟩] }
    match msg.parsed with
    | none =>
        prependOps [.mqInsert msg.content, .txBegin, .txRollback]
          (csCatch db1 (some mqId) msg.retryCount)
    | some p =>
        if fail = .atDisasterCheck ∨ fail = .atOutboxInsert then
          prependOps [.mqInsert msg.content, .txBegin, .txRollback]
            (csCatch db1 (some mqId) msg.retryCount)
        else
          let db2 : CsDb := { db1 with
            rtRows := db1.rtRows ++
              [⟨mqId, p.type, outboundId, p.externalSystemName, msg.content⟩] }
          if fail = .atInboxUpdate then
            prependOps [.mqInsert msg.content, .txBegin, .outboxInsert,
              .txRollback] (csCatch db2 (some mqId) msg.retryCount)
          else
            ({ db2 with mqRows := setMqStatus db2.mqRows mqId .success none },
             .ack,
             [.mqInsert msg.content, .txBegin, .outboxInsert,
              .inboxUpdateStaged, .txCommit])

/-- An `external_systems` row (subscriber registry). -/
structure ExternalSystem where
  id : Nat
  subscribedEventCodes : List String
  isActive : Bool
deriving DecidableEq, Repr

/-- A `disaster_transmit_logs` row as inserted by `createBulk`. -/
structure DtLogRow where
  mqReceiveLogId : Nat
  externalSystemId : Nat
  identifier : String
deriving DecidableEq, Repr

/-- ES database state seen by the disaster consumer. -/
structure EsDb where
  nextMqId : Nat
  mqRows : List MqRow
  systems : List ExternalSystem
  dtRows : List DtLogRow
deriving DecidableEq, Repr

/-- The payload parsed from a `disaster.*` delivery
(`{identifier, eventCode, rawMessage}`); `none` models a `JSON.parse`
failure. -/
structure ParsedDisaster where
  identifier : String
  eventCode : String
deriving DecidableEq, Repr

/-- One `disaster.*` broker delivery. -/
structure EsDelivery where
  content : String
  retryCount : Nat
  parsed : Option ParsedDisaster
deriving DecidableEq, Repr

/-- ES failure points (the ES consumer has no pool-side write inside the
try block, so the outbox insert and the inbox update are both on the
transaction client). -/
inductive EsFailPoint
  | noFailure
  | atInboxInsert
  | atOutboxInsert
  | atInboxUpdate
deriving DecidableEq, Repr

/-- `externalSystemRepository.findBySubscribedEventCode`
(`src/unnamed/part_002`): active systems whose `subscribed_event_codes`
array contains the event code. -/
def findBySubscribedEventCode (systems : List ExternalSystem)
    (eventCode : String) : List ExternalSystem :=
  systems.filter fun s => s.isActive && s.subscribedEventCodes.contains eventCode

/-- One row of `disasterTransmitLogRepository.createBulk`
(`src/unnamed/part_002`): `ON CONFLICT (external_system_id, identifier)
DO NOTHING`. -/
def insertDtRow (rows : List DtLogRow) (row : DtLogRow) : List DtLogRow :=
  if rows.any fun r =>
      r.externalSystemId = row.externalSystemId && r.identifier = row.identifier
  then rows
  else rows ++ [row]

/-- Modelled from the spec: the ES-side `mqReceiveLogRepository.create`
source file is not under `src/`; per §4.5 step 2 ("Insert
`mq_receive_log(raw_message)` status `PENDING`") and the ES migration of
`mq_receive_logs` (no uniqueness constraint), it unconditionally appends
one `PENDING` row and returns its id — identical to the CS-side
repository that is in `src/`. -/
def esMqCreate (db : EsDb) (raw : String) : EsDb × Nat :=
  ({ db with nextMqId := db.nextMqId + 1,
             mqRows := db.mqRows ++ [⟨db.nextMqId, raw, .pending, none⟩] },
   db.nextMqId)

/-- The shared catch block of `_consumeDisasterMessage` (lines 214-256):
same retry/DLQ policy as the CS consumer. -/
def esCatch (db : EsDb) (mqId : Option Nat) (retryCount : Nat) :
    EsDb × BrokerAction × List Op :=
  if retryCount < MAX_RETRIES then
    (db, .retryPublish (retryCount + 1), [])
  else
    match mqId with
    | some i =>
        ({ db with mqRows := setMqStatus db.mqRows i .failed
                     (some "[Final Failed]") }, .nackToDlq, [.mqFailedUpdate])
    | none => (db, .nackToDlq, [])

/-- Prefix an op trace onto an ES consumer result. -/
def esPrependOps (ops : List Op) :
    EsDb × BrokerAction × List Op → EsDb × BrokerAction × List Op
  | (db, a, ops') => (db, a, ops ++ ops')

/-- `_consumeDisasterMessage` (ES messageBrokerService.js lines 127-258).
Step 1 inserts the inbox row through the pool; step 2 opens a
transaction, parses the payload, looks up the subscribed active systems,
batch-inserts the `disaster_transmit_logs` rows **on the transaction
client**, updates the inbox row to `SUCCESS` on the same client and
commits, so a failure rolls both staged writes back together. -/
def consumeDisaster (db : EsDb) (msg : EsDelivery) (fail : EsFailPoint) :
    EsDb × BrokerAction × List Op :=
  if fail = .atInboxInsert then
    esPrependOps [] (esCatch db none msg.retryCount)
  else
    let res := esMqCreate db msg.content
    let db1 := res.1
    let mqId := res.2
    match msg.parsed with
    | none =>
        esPrependOps [.mqInsert msg.content, .txBegin, .txRollback]
          (esCatch db1 (some mqId) msg.retryCount)
    | some p =>
        if fail = .atOutboxInsert ∨ fail = .atInboxUpdate then
          esPrependOps [.mqInsert msg.content, .txBegin, .txRollback]
            (esCatch db1 (some mqId) msg.retryCount)
        else
          let subscribed := findBySubscribedEventCode db1.systems p.eventCode
          let newRows := subscribed.map fun s =>
            (⟨mqId, s.id, p.identifier⟩ : DtLogRow)
          let db2 : EsDb := { db1 with
            dtRows := newRows.foldl insertDtRow db1.dtRows,
            mqRows := setMqStatus db1.mqRows mqId .success none }
          (db2, .ack,
           [.mqInsert msg.content, .txBegin, .outboxInsert,
            .inboxUpdateStaged, .txCommit])

end Consumers

/-! ## CS inbound disaster pipeline
(`disasterHandler.js` in `src/unnamed/part_008` lines 288-453,
`tcpReceiveLogRepository.js` / `disasterPublishLogRepository.js` in
`src/unnamed/part_005`, `disasterPublishWorker.js` in
`src/unnamed/part_006` lines 23-101, and the allowlist in
`src/unnamed/part_004`) -/

namespace DisasterHandler

/-- `config.tcp.protocol.VALID_EVENT_CODES` (`src/unnamed/part_004`
lines 66-85). -/
def VALID_EVENT_CODES : List String :=
  ["EQI", "EQW", "EEW", "FEI", "TSA", "TSL", "TSW", "TSC", "TSO", "TSR", "TSI", "VOI", "VOA",
   "VOL", "VOW", "VOC", "VOO", "VOR", "FLA", "FLL", "FLG", "FLW", "FLC", "FLN", "FLS", "HWA",
   "HWG", "HWL", "HWW", "HWN", "HWC", "HWE", "HWS", "HRA", "HRG", "HRL", "HRW", "HRN", "HRC",
   "HRE", "HRS", "CWA", "CWG", "CWL", "CWW", "CWN", "CWC", "CWE", "CWS", "HAA", "HAG", "HAL",
   "HAW", "HAN", "HAC", "HAE", "HAS", "SSA", "SSG", "SSL", "SSW", "SSN", "SSC", "SSE", "SSS",
   "WWA", "WWG", "WWL", "WWW", "WWN", "WWC", "WWE", "WWS", "TPA", "TPG", "TPL", "TPW", "TPN",
   "TPC", "TPE", "TPS", "HSA", "HSG", "HSL", "HSW", "HSN", "HSC", "HSE", "HSS", "YSW", "YSN",
   "YSC", "YSE", "YSS", "HTA", "HTG", "HTL", "HTW", "HTN", "HTC", "HTE", "HTS", "HFA", "HFG",
   "HFL", "HFW", "HFN", "HFC", "HFE", "HFS", "THW", "THS", "DRW", "DRS", "NSD", "NSW", "NSV",
   "NSS", "AVA", "AVW", "AVC", "AVS", "NHW", "NHS", "MFA", "MFW", "MFV", "MFC", "MFE", "MFS",
   "CPW", "CAW", "CCW", "CNW", "CDC", "GFD", "GFS", "NDA", "NDW", "NDS", "ASD", "ASW", "ASV",
   "ASS", "GRW", "GRS", "FDA", "FDW", "FDE", "FDS", "CWD", "CWI", "CHD", "CHC", "CHE", "CHS",
   "DEW", "DES", "DEC", "LDW", "LDA", "POA", "POW", "POS", "POD", "GAD", "COD", "RWD", "RWS",
   "RWC", "RWI", "SWD", "SWS", "SWC", "BCW", "BCS", "ISD", "MSD", "MSS", "MAE", "MPD", "MPS",
   "FND", "FNE", "FNS", "DOW", "DOE", "DOS", "DBA", "DBW", "DBS", "RVD", "DWW", "DFD", "DFS",
   "TEW", "TES", "FHD", "FHV", "FHS", "FRW", "FRV", "FRC", "FRS", "WHD", "RLD", "RLE", "RLS",
   "RHW", "RHS", "NRD", "NRS", "CME", "CMC", "CAE", "CAC", "SHW", "SHS", "LAW", "NPT", "DIS", "DIM"]

/-- The CAP `<alert>` fields the handler validates
(`alert.info.eventCode.value` flattened to `eventCodeValue`). -/
structure Alert where
  identifier : Option String
  sender : Option String
  sent : Option String
  eventCodeValue : Option String
deriving DecidableEq, Repr

/-- The parsed envelope `<data>` of an `ETS_NFY_DIS_INFO` body after the
outer XML wrapper parse succeeded with `transMsgId` / `transMsgSeq`
present (otherwise the handler raises `ParsingError` before anything
else). -/
structure Envelope where
  transMsgId : String
  transMsgSeq : Nat
  alert : Option Alert
deriving DecidableEq, Repr

/-- A `tcp_receive_logs` row. -/
structure TcpRow where
  id : Nat
  inboundId : String
  inboundSeq : Nat
  status : Status
deriving DecidableEq, Repr

/-- A `disaster_publish_logs` row. -/
structure DplRow where
  id : Nat
  tcpReceiveLogId : Nat
  routingKey : String
  identifier : String
  eventCode : String
  status : Status
  retryCount : Nat
deriving DecidableEq, Repr

/-- CS database state seen by the disaster handler. -/
structure AlertDb where
  nextTcpId : Nat
  tcpRows : List TcpRow
  nextDplId : Nat
  dplRows : List DplRow
deriving DecidableEq, Repr

/-- `tcpReceiveLogRepository.isDuplicate` (`src/unnamed/part_005`):
a row with the `(inbound_id, inbound_seq)` pair exists. -/
def isDuplicate (rows : List TcpRow) (inboundId : String)
    (inboundSeq : Nat) : Bool :=
  rows.any fun r => r.inboundId == inboundId && r.inboundSeq == inboundSeq

/-- `tcpReceiveLogRepository.updateStatus`: set the status of the row
with the given id. -/
def setTcpStatus (rows : List TcpRow) (i : Nat) (s : Status) : List TcpRow :=
  rows.map fun r => if r.id = i then { r with status := s } else r

/-- `handleDisasterInfo` (`src/unnamed/part_008` lines 288-453).  Input
`none` models an outer-XML parse failure (or missing
`transMsgId`/`transMsgSeq`): `receivedData` is unset, so no reply can be
built and nothing is written.  Otherwise: duplicate check (throws before
the inbox insert); insert the `tcp_receive_logs` row `PENDING` on the
client **before** `BEGIN` (autocommit, so it survives a later rollback);
inside the transaction validate the CAP fields (note 210) and the event
code against the allowlist (note 220), insert the `disaster_publish_logs`
row with `routing_key = "disaster." + eventCode` and
`ON CONFLICT (identifier) DO NOTHING`, update the inbox row to `SUCCESS`
and commit.  On a classified failure after the insert: rollback, set the
inbox row `FAILED`, reply with the mapped NACK. -/
def handleDisasterInfo (db : AlertDb) (input : Option Envelope) :
    AlertDb × Option ResponseUtils.CnfDisInfo :=
  match input with
  | none => (db, none)
  | some env =>
    if isDuplicate db.tcpRows env.transMsgId env.transMsgSeq then
      (db, some (ResponseUtils.createCnfDisInfo env.transMsgId env.transMsgSeq
        (some .duplicateMessageError)))
    else
      let tcpId := db.nextTcpId
      let db1 : AlertDb := { db with
        nextTcpId := tcpId + 1,
        tcpRows := db.tcpRows ++
          [⟨tcpId, env.transMsgId, env.transMsgSeq, .pending⟩] }
      let failWith : ResponseUtils.DisasterError →
          AlertDb × Option ResponseUtils.CnfDisInfo := fun e =>
        ({ db1 with tcpRows := setTcpStatus db1.tcpRows tcpId .failed },
         some (ResponseUtils.createCnfDisInfo env.transMsgId env.transMsgSeq
           (some e)))
      match env.alert with
      | none => failWith .validationError
      | some a =>
        match a.identifier, a.sender, a.sent, a.eventCodeValue with
        | some ident, some _, some _, some ec =>
          if VALID_EVENT_CODES.contains ec then
            let dplInserted :=
              if db1.dplRows.any fun r => r.identifier == ident then
                (db1.dplRows, db1.nextDplId)
              else
                (db1.dplRows ++
                  [⟨db1.nextDplId, tcpId, "disaster." ++ ec, ident, ec,
                    .pending, 0⟩], db1.nextDplId + 1)
            ({ db1 with
                dplRows := dplInserted.1,
                nextDplId := dplInserted.2,
                tcpRows := setTcpStatus db1.tcpRows tcpId .success },
             some (ResponseUtils.createCnfDisInfo env.transMsgId
               env.transMsgSeq none))
          else failWith .profileError
        | _, _, _, _ => failWith .validationError

/-- One tick of `disasterPublishWorker` (`src/unnamed/part_006` lines
23-101), restricted to what it publishes: for each `PENDING` row of
`disaster_publish_logs` (in order), rows at `retry_count >= MAX_RETRIES`
are marked `FAILED` and publish nothing; the rest publish
`(routingKey, identifier)` to the broker. -/
def disasterPublishWorkerPublishes (db : AlertDb) : List (String × String) :=
  (db.dplRows.filter fun r => r.status == .pending).filterMap fun r =>
    if r.retryCount ≥ MAX_RETRIES then none
    else some (r.routingKey, r.identifier)

end DisasterHandler

/-! ## Framed wire protocol
(`buildMessageBuffer` in
`src/central-service/src/core/utils/protocolUtils.js` lines 21-57 and
`ProtocolParser` in `src/central-service/src/tcp/protocolParser.js`)

Buffers are lists of byte values.  The configured magic number and data
format are parameters shared by framer and deframer, as both read them
from the same config module.  `buildMessageBuffer` serialises the XML
object to the body bytes first; the model takes the body bytes
directly. -/

namespace Protocol

/-- `Buffer.writeUInt32BE`: the four big-endian bytes of a 32-bit
value. -/
def writeUInt32BE (x : Nat) : List Nat :=
  [x / 16777216 % 256, x / 65536 % 256, x / 256 % 256, x % 256]

/-- `Buffer.readUInt32BE` over four bytes. -/
def readUInt32BE (b0 b1 b2 b3 : Nat) : Nat :=
  ((b0 * 256 + b1) * 256 + b2) * 256 + b3

/-- Byte access into the parser's internal buffer. -/
def byteAt (l : List Nat) (i : Nat) : Nat := l.getD i 0

/-- The parsed 16-byte header. -/
structure Header where
  messageId : Nat
  dataFormat : Nat
  magicNumber : Nat
  dataLength : Nat
deriving DecidableEq, Repr

/-- A complete deframed message as emitted by the `'message'` event. -/
structure Message where
  header : Header
  body : List Nat
deriving DecidableEq, Repr

/-- `buildMessageBuffer` (protocolUtils.js lines 21-57): a 16-byte
header — `messageId`, `DATA_FORMAT`, `MAGIC_NUMBER`, `bodyBuffer.length`,
each written with `writeUInt32BE` — concatenated with the body bytes. -/
def buildMessageBuffer (magic dataFormat : Nat) (messageId : Nat)
    (body : List Nat) : List Nat :=
  writeUInt32BE messageId ++ writeUInt32BE dataFormat ++
    writeUInt32BE magic ++ writeUInt32BE body.length ++ body

/-- The parser's `parsingState` together with the pending header
(`'HEADER'` has `header = null`; `'BODY'` always holds the parsed
header). -/
inductive Mode
  | readHeader
  | readBody (hdr : Header)
deriving DecidableEq, Repr

/-- The mutable state of a `ProtocolParser` instance. -/
structure ParserState where
  buffer : List Nat
  neededLength : Nat
  mode : Mode
deriving DecidableEq, Repr

/-- The freshly constructed parser: empty buffer, waiting for a
16-byte header. -/
def initialState : ParserState := ⟨[], HEADER_LENGTH, .readHeader⟩

/-- `_parseHeader` (protocolParser.js lines 88-133): read the four
big-endian fields; `none` models the thrown framing error (magic-number
mismatch or `dataLength > MAX_BODY_LENGTH`).  Otherwise drop the header
bytes; a zero-length body emits the message immediately and returns to
header framing, else the parser waits for `dataLength` body bytes. -/
def parseHeaderStep (magic : Nat) (s : ParserState) :
    Option (ParserState × List Message) :=
  let messageId := readUInt32BE (byteAt s.buffer 0) (byteAt s.buffer 1)
    (byteAt s.buffer 2) (byteAt s.buffer 3)
  let dataFormat := readUInt32BE (byteAt s.buffer 4) (byteAt s.buffer 5)
    (byteAt s.buffer 6) (byteAt s.buffer 7)
  let magicNumber := readUInt32BE (byteAt s.buffer 8) (byteAt s.buffer 9)
    (byteAt s.buffer 10) (byteAt s.buffer 11)
  let dataLength := readUInt32BE (byteAt s.buffer 12) (byteAt s.buffer 13)
    (byteAt s.buffer 14) (byteAt s.buffer 15)
  if magicNumber ≠ magic then none
  else if dataLength > MAX_BODY_LENGTH then none
  else
    let hdr : Header := ⟨messageId, dataFormat, magicNumber, dataLength⟩
    let rest := s.buffer.drop HEADER_LENGTH
    if dataLength = 0 then
      some (⟨rest, HEADER_LENGTH, .readHeader⟩, [⟨hdr, []⟩])
    else
      some (⟨rest, dataLength, .readBody hdr⟩, [])

/-- `_resetParserState` (protocolParser.js lines 185-191): purge the
buffer entirely and resume header framing. -/
def resetState : ParserState := ⟨[], HEADER_LENGTH, .readHeader⟩

/-- The `while (buffer.length >= neededLength)` loop of `_transform`
(protocolParser.js lines 51-78).  A framing error resets the parser and
breaks out of the loop.  `fuel` bounds the iteration count; every
reachable iteration consumes at least one buffered byte, so
`buffer.length + 1` is always sufficient. -/
def transformLoop (magic : Nat) : Nat → ParserState → List Message →
    List Message × ParserState
  | 0, s, acc => (acc, s)
  | fuel + 1, s, acc =>
    if s.buffer.length ≥ s.neededLength then
      match s.mode with
      | .readHeader =>
        match parseHeaderStep magic s with
        | none => (acc, resetState)
        | some (s', ms) => transformLoop magic fuel s' (acc ++ ms)
      | .readBody hdr =>
        let body := s.buffer.take s.neededLength
        transformLoop magic fuel
          ⟨s.buffer.drop s.neededLength, HEADER_LENGTH, .readHeader⟩
          (acc ++ [⟨hdr, body⟩])
    else (acc, s)

/-- `_transform` (protocolParser.js lines 43-83): append the chunk to the
internal buffer and run the framing loop; returns the emitted messages in
order and the parser state afterwards. -/
def transform (magic : Nat) (s : ParserState) (chunk : List Nat) :
    List Message × ParserState :=
  let s' : ParserState := { s with buffer := s.buffer ++ chunk }
  transformLoop magic (s'.buffer.length + 1) s' []

end Protocol

/-! ## MD5 and the digest authenticator
(`src/central-service/src/core/services/authService.js`)

`authService` calls Node's `crypto` MD5; the model implements MD5
(RFC 1321) executably over byte lists, with 32-bit words as `Nat` reduced
`% 2^32`. -/

namespace Md5

/-- `2^32`. -/
def M32 : Nat := 4294967296

/-- The 64 round constants `K[i] = floor(2^32 * |sin(i + 1)|)`. -/
def K : List Nat :=
  [3614090360, 3905402710, 606105819, 3250441966, 4118548399, 1200080426, 2821735955, 4249261313,
   1770035416, 2336552879, 4294925233, 2304563134, 1804603682, 4254626195, 2792965006, 1236535329,
   4129170786, 3225465664, 643717713, 3921069994, 3593408605, 38016083, 3634488961, 3889429448,
   568446438, 3275163606, 4107603335, 1163531501, 2850285829, 4243563512, 1735328473, 2368359562,
   4294588738, 2272392833, 1839030562, 4259657740, 2763975236, 1272893353, 4139469664, 3200236656,
   681279174, 3936430074, 3572445317, 76029189, 3654602809, 3873151461, 530742520, 3299628645,
   4096336452, 1126891415, 2878612391, 4237533241, 1700485571, 2399980690, 4293915773, 2240044497,
   1873313359, 4264355552, 2734768916, 1309151649, 4149444226, 3174756917, 718787259, 3951481745]

/-- The per-round left-rotation amounts. -/
def S : List Nat :=
  [7, 12, 17, 22, 7, 12, 17, 22, 7, 12, 17, 22, 7, 12, 17, 22,
   5, 9, 14, 20, 5, 9, 14, 20, 5, 9, 14, 20, 5, 9, 14, 20,
   4, 11, 16, 23, 4, 11, 16, 23, 4, 11, 16, 23, 4, 11, 16, 23,
   6, 10, 15, 21, 6, 10, 15, 21, 6, 10, 15, 21, 6, 10, 15, 21]

/-- 32-bit left rotation. -/
def rotl (x s : Nat) : Nat := (x * 2 ^ s + x / 2 ^ (32 - s)) % M32

/-- 32-bit bitwise complement. -/
def bnot (x : Nat) : Nat := x ^^^ 4294967295

/-- Round function and message-word index for step `i`. -/
def roundFG (i b c d : Nat) : Nat × Nat :=
  if i < 16 then ((b &&& c) ||| (bnot b &&& d), i)
  else if i < 32 then ((d &&& b) ||| (bnot d &&& c), (5 * i + 1) % 16)
  else if i < 48 then (b ^^^ c ^^^ d, (3 * i + 5) % 16)
  else (c ^^^ (b ||| bnot d), (7 * i) % 16)

/-- One of the 64 steps of a chunk. -/
def md5Step (m : List Nat) (st : Nat × Nat × Nat × Nat) (i : Nat) :
    Nat × Nat × Nat × Nat :=
  let (a, b, c, d) := st
  let (f, g) := roundFG i b c d
  let f' := (f + a + K.getD i 0 + m.getD g 0) % M32
  (d, (b + rotl f' (S.getD i 0)) % M32, b, c)

/-- The sixteen little-endian 32-bit words of a 64-byte chunk. -/
def chunkWords (chunk : List Nat) : List Nat :=
  (List.range 16).map fun j =>
    chunk.getD (4 * j) 0 + 256 * chunk.getD (4 * j + 1) 0 +
      65536 * chunk.getD (4 * j + 2) 0 + 16777216 * chunk.getD (4 * j + 3) 0

/-- Process one 64-byte chunk into the running state. -/
def processChunk (h : Nat × Nat × Nat × Nat) (chunk : List Nat) :
    Nat × Nat × Nat × Nat :=
  let m := chunkWords chunk
  let (a, b, c, d) := (List.range 64).foldl (md5Step m) h
  ((h.1 + a) % M32, (h.2.1 + b) % M32, (h.2.2.1 + c) % M32, (h.2.2.2 + d) % M32)

/-- MD5 padding: `0x80`, zeros to 56 mod 64, then the 64-bit
little-endian bit length. -/
def padMessage (msg : List Nat) : List Nat :=
  let len := msg.length
  let zeros := (120 - (len + 1) % 64) % 64
  msg ++ [128] ++ List.replicate zeros 0 ++
    (List.range 8).map fun i => len * 8 / 2 ^ (8 * i) % 256

/-- Split a list into 64-byte chunks (structural recursion on a fuel
bound so the definition reduces in the kernel). -/
def chunksOf64Fuel : Nat → List Nat → List (List Nat)
  | 0, _ => []
  | _, [] => []
  | fuel + 1, l => l.take 64 :: chunksOf64Fuel fuel (l.drop 64)

/-- Split a list into 64-byte chunks. -/
def chunksOf64 (l : List Nat) : List (List Nat) :=
  chunksOf64Fuel l.length l

/-- The sixteen digest bytes of a byte message. -/
def md5Bytes (msg : List Nat) : List Nat :=
  let h := (chunksOf64 (padMessage msg)).foldl processChunk
    (1732584193, 4023233417, 2562383102, 271733878)
  ([h.1, h.2.1, h.2.2.1, h.2.2.2].map fun w =>
    (List.range 4).map fun i => w / 2 ^ (8 * i) % 256).flatten

/-- A lowercase hex digit. -/
def hexDigitChar (n : Nat) : Char :=
  if n < 10 then Char.ofNat (48 + n) else Char.ofNat (87 + n)

/-- The lowercase hex digest, as produced by Node's `digest('hex')`. -/
def md5Hex (msg : List Nat) : String :=
  ⟨(md5Bytes msg).foldr (fun b acc => hexDigitChar (b / 16) :: hexDigitChar (b % 16) :: acc) []⟩

end Md5

namespace AuthService

/-- The bytes `crypto.update` hashes for a protocol identifier string
(ASCII, so UTF-8 encoding is the code points). -/
def stringBytes (s : String) : List Nat := s.data.map Char.toNat

/-- JavaScript `String.prototype.toUpperCase` on ASCII strings. -/
def toUpperAscii (s : String) : String := ⟨s.data.map Char.toUpper⟩

/-- `_md5` (authService.js lines 16-18):
`createHash('md5').update(string).digest('hex').toUpperCase()` — the
**uppercase** hex MD5 of the string. -/
def md5Upper (s : String) : String := toUpperAscii (Md5.md5Hex (stringBytes s))

/-- `calculateResponse` (authService.js lines 29-45): stage 1 computes
`A1 = _md5(destId ++ ":" ++ realm ++ ":" ++ password)`; stage 2 returns
`_md5(A1 ++ ":" ++ nonce)`.  Both stages use the uppercasing `_md5`
helper. -/
def calculateResponse (destId realm password nonce : String) : String :=
  let a1String := destId ++ ":" ++ realm ++ ":" ++ password
  let a1 := md5Upper a1String
  let responseString := a1 ++ ":" ++ nonce
  md5Upper responseString

end AuthService

/-! # Helper lemmas -/

namespace SessionManager

theorem mapGet_mapSet_self (m : SMap) (k : Nat) (v : Socket) :
    mapGet (mapSet m k v) k = some v := by
  induction m with
  | nil => simp [mapSet, mapGet]
  | cons e t ih =>
      by_cases h : e.1 = k
      · simp [mapSet, mapGet, h]
      · simp [mapSet, mapGet, h, ih]

theorem mem_keys_mapSet {m : SMap} {k a : Nat} {v : Socket}
    (h : a ∈ (mapSet m k v).map Prod.fst) :
    a = k ∨ a ∈ m.map Prod.fst := by
  induction m with
  | nil => simpa [mapSet] using h
  | cons e t ih =>
      by_cases hek : e.1 = k
      · simp only [mapSet, if_pos hek, List.map_cons, List.mem_cons] at h
        rcases h with h | h
        · exact Or.inl h
        · exact Or.inr (by simp [h])
      · simp only [mapSet, if_neg hek, List.map_cons, List.mem_cons] at h
        rcases h with h | h
        · exact Or.inr (by simp [h])
        · rcases ih h with h' | h'
          · exact Or.inl h'
          · exact Or.inr (by simp [h'])

theorem mem_keys_mapDelete {m : SMap} {k a : Nat}
    (h : a ∈ (mapDelete m k).map Prod.fst) : a ∈ m.map Prod.fst := by
  induction m with
  | nil => simp [mapDelete] at h
  | cons e t ih =>
      by_cases hek : e.1 = k
      · simp only [mapDelete, if_pos hek] at h
        simp [h]
      · simp only [mapDelete, if_neg hek, List.map_cons, List.mem_cons] at h
        rcases h with h | h
        · simp [h]
        · simp [ih h]

theorem keysNodup_mapSet {m : SMap} (k : Nat) (v : Socket)
    (hm : KeysNodup m) : KeysNodup (mapSet m k v) := by
  induction m with
  | nil => simp [KeysNodup, mapSet]
  | cons e t ih =>
      unfold KeysNodup at hm ⊢
      simp only [List.map_cons, List.nodup_cons] at hm
      by_cases hek : e.1 = k
      · simp only [mapSet, if_pos hek, List.map_cons, List.nodup_cons]
        exact ⟨by rw [← hek]; exact hm.1, hm.2⟩
      · simp only [mapSet, if_neg hek, List.map_cons, List.nodup_cons]
        refine ⟨fun hmem => ?_, ih hm.2⟩
        rcases mem_keys_mapSet hmem with h | h
        · exact hek h
        · exact hm.1 h

theorem keysNodup_mapDelete {m : SMap} (k : Nat)
    (hm : KeysNodup m) : KeysNodup (mapDelete m k) := by
  induction m with
  | nil => simp [KeysNodup, mapDelete]
  | cons e t ih =>
      unfold KeysNodup at hm ⊢
      simp only [List.map_cons, List.nodup_cons] at hm
      by_cases hek : e.1 = k
      · simp only [mapDelete, if_pos hek]
        exact hm.2
      · simp only [mapDelete, if_neg hek, List.map_cons, List.nodup_cons]
        exact ⟨fun hmem => hm.1 (mem_keys_mapDelete hmem), ih hm.2⟩

theorem keysNodup_addSocket {m : SMap} (sock : Socket)
    (hm : KeysNodup m) : KeysNodup (addSocket m sock).1 := by
  unfold addSocket
  cases mapGet m sock.systemId with
  | none => exact keysNodup_mapSet _ _ hm
  | some old => exact keysNodup_mapSet _ _ (keysNodup_mapDelete _ hm)

theorem keysNodup_removeSocket {m : SMap} (sock : Socket)
    (hm : KeysNodup m) : KeysNodup (removeSocket m sock) := by
  unfold removeSocket
  cases mapGet m sock.systemId with
  | none => exact hm
  | some s =>
      by_cases h : s = sock
      · simpa [h] using keysNodup_mapDelete sock.systemId hm
      · simpa [h] using hm

end SessionManager

namespace Consumers

/-- The identity/content projection of an inbox row, invariant under
status updates. -/
def mqKey (r : MqRow) : Nat × String := (r.id, r.rawMessage)

theorem mqKey_setMqStatus (rows : List MqRow) (i : Nat) (s : Status)
    (err : Option String) :
    (setMqStatus rows i s err).map mqKey = rows.map mqKey := by
  induction rows with
  | nil => rfl
  | cons r t ih =>
      by_cases h : r.id = i
      · simp [setMqStatus, h, mqKey] at ih ⊢
        exact ih
      · simp [setMqStatus, h, mqKey] at ih ⊢
        exact ih

theorem csCatch_mqKeys (db : CsDb) (mqId : Option Nat) (rc : Nat) :
    (csCatch db mqId rc).1.mqRows.map mqKey = db.mqRows.map mqKey := by
  unfold csCatch
  by_cases h : rc < MAX_RETRIES
  · simp [h]
  · cases mqId with
    | none => simp [h]
    | some i => simp [h, mqKey_setMqStatus]

theorem esCatch_mqKeys (db : EsDb) (mqId : Option Nat) (rc : Nat) :
    (esCatch db mqId rc).1.mqRows.map mqKey = db.mqRows.map mqKey := by
  unfold esCatch
  by_cases h : rc < MAX_RETRIES
  · simp [h]
  · cases mqId with
    | none => simp [h]
    | some i => simp [h, mqKey_setMqStatus]

theorem consumeReport_appends_inbox_row (db : CsDb) (msg : Delivery)
    (oid : String) (fail : FailPoint) (hf : fail ≠ .atInboxInsert) :
    (consumeReport db msg oid fail).1.mqRows.map mqKey =
      db.mqRows.map mqKey ++ [(db.nextMqId, msg.content)] ∧
    (consumeReport db msg oid fail).2.2.head? =
      some (.mqInsert msg.content) := by
  obtain ⟨content, rc, parsed⟩ := msg
  cases fail with
  | atInboxInsert => exact absurd rfl hf
  | noFailure =>
      cases parsed with
      | none =>
          simp [consumeReport, prependOps, csCatch_mqKeys, mqKey]
      | some p =>
          simp [consumeReport, prependOps, mqKey_setMqStatus, mqKey]
  | atDisasterCheck =>
      cases parsed with
      | none => simp [consumeReport, prependOps, csCatch_mqKeys, mqKey]
      | some p => simp [consumeReport, prependOps, csCatch_mqKeys, mqKey]
  | atOutboxInsert =>
      cases parsed with
      | none => simp [consumeReport, prependOps, csCatch_mqKeys, mqKey]
      | some p => simp [consumeReport, prependOps, csCatch_mqKeys, mqKey]
  | atInboxUpdate =>
      cases parsed with
      | none => simp [consumeReport, prependOps, csCatch_mqKeys, mqKey]
      | some p => simp [consumeReport, prependOps, csCatch_mqKeys, mqKey]

theorem consumeDisaster_appends_inbox_row (db : EsDb) (msg : EsDelivery)
    (fail : EsFailPoint) (hf : fail ≠ .atInboxInsert) :
    (consumeDisaster db msg fail).1.mqRows.map mqKey =
      db.mqRows.map mqKey ++ [(db.nextMqId, msg.content)] ∧
    (consumeDisaster db msg fail).2.2.head? =
      some (.mqInsert msg.content) := by
  obtain ⟨content, rc, parsed⟩ := msg
  cases fail with
  | atInboxInsert => exact absurd rfl hf
  | noFailure =>
      cases parsed with
      | none =>
          simp [consumeDisaster, esPrependOps, esCatch_mqKeys, esMqCreate, mqKey]
      | some p =>
          simp [consumeDisaster, esPrependOps, esMqCreate, mqKey_setMqStatus,
            mqKey]
  | atOutboxInsert =>
      cases parsed with
      | none =>
          simp [consumeDisaster, esPrependOps, esCatch_mqKeys, esMqCreate, mqKey]
      | some p =>
          simp [consumeDisaster, esPrependOps, esCatch_mqKeys, esMqCreate, mqKey]
  | atInboxUpdate =>
      cases parsed with
      | none =>
          simp [consumeDisaster, esPrependOps, esCatch_mqKeys, esMqCreate, mqKey]
      | some p =>
          simp [consumeDisaster, esPrependOps, esCatch_mqKeys, esMqCreate, mqKey]

theorem consumeReport_mq_length (db : CsDb) (msg : Delivery) (oid : String)
    (fail : FailPoint) (hf : fail ≠ .atInboxInsert) :
    (consumeReport db msg oid fail).1.mqRows.length =
      db.mqRows.length + 1 := by
  have h := (consumeReport_appends_inbox_row db msg oid fail hf).1
  have := congrArg List.length h
  simpa using this

theorem consumeReport_fold_length (oid : String) (msgs : List Delivery)
    (db : CsDb) :
    (msgs.foldl (fun d m => (consumeReport d m oid .noFailure).1)
        db).mqRows.length = db.mqRows.length + msgs.length := by
  induction msgs generalizing db with
  | nil => simp
  | cons m t ih =>
      simp only [List.foldl_cons, List.length_cons]
      rw [ih, consumeReport_mq_length db m oid .noFailure (by simp)]
      omega

end Consumers

namespace DisasterHandler

theorem setTcpStatus_append_fresh (rows : List TcpRow) (row : TcpRow)
    (s : Status) (hfresh : ∀ r ∈ rows, r.id ≠ row.id) :
    setTcpStatus (rows ++ [row]) row.id s =
      rows ++ [{ row with status := s }] := by
  induction rows with
  | nil => simp [setTcpStatus]
  | cons r t ih =>
      have hr : r.id ≠ row.id := hfresh r (by simp)
      have ht : ∀ x ∈ t, x.id ≠ row.id := fun x hx => hfresh x (by simp [hx])
      simp only [List.cons_append, setTcpStatus, List.map_cons] at ih ⊢
      rw [if_neg hr]
      simpa [setTcpStatus] using ih ht

end DisasterHandler

namespace Protocol

theorem readUInt32BE_writeUInt32BE (a : Nat) (h : a < 4294967296) :
    readUInt32BE (a / 16777216 % 256) (a / 65536 % 256) (a / 256 % 256)
      (a % 256) = a := by
  unfold readUInt32BE
  omega

/-- Running the framing loop on a buffer holding exactly one framed
message (with matching magic number, any 32-bit data format, and a body
within `MAX_BODY_LENGTH`) emits that one message and returns the parser
to its initial state.  Three loop iterations always suffice. -/
theorem transformLoop_frame (magic dataFormat messageId : Nat)
    (body : List Nat) (acc : List Message) (fuel : Nat)
    (hmagic : magic < 4294967296) (hfmt : dataFormat < 4294967296)
    (hmsg : messageId < 4294967296) (hlen : body.length ≤ MAX_BODY_LENGTH)
    (hfuel : 3 ≤ fuel) :
    transformLoop magic fuel
        ⟨buildMessageBuffer magic dataFormat messageId body, HEADER_LENGTH,
          .readHeader⟩ acc =
      (acc ++ [⟨⟨messageId, dataFormat, magic, body.length⟩, body⟩],
       initialState) := by
  obtain ⟨f, rfl⟩ : ∃ f, fuel = f + 3 := ⟨fuel - 3, by omega⟩
  rw [show f + 3 = (f + 2) + 1 from rfl]
  simp only [transformLoop]
  rw [if_pos (by simp [buildMessageBuffer, writeUInt32BE, HEADER_LENGTH])]
  simp only [parseHeaderStep, buildMessageBuffer, writeUInt32BE, byteAt,
    List.cons_append, List.nil_append, List.getD_cons_succ, List.getD_cons_zero]
  have hlen32 : body.length < 4294967296 := by
    unfold MAX_BODY_LENGTH at hlen
    omega
  rw [readUInt32BE_writeUInt32BE magic hmagic,
    readUInt32BE_writeUInt32BE dataFormat hfmt,
    readUInt32BE_writeUInt32BE messageId hmsg,
    readUInt32BE_writeUInt32BE body.length hlen32]
  simp only [ne_eq, not_true_eq_false, if_false, gt_iff_lt, HEADER_LENGTH,
    List.drop_succ_cons, List.drop_zero]
  rw [if_neg (by omega)]
  cases body with
  | nil => simp [transformLoop, initialState, HEADER_LENGTH]
  | cons c cs =>
      simp [transformLoop, initialState, HEADER_LENGTH, List.take_length,
        List.drop_length]

end Protocol

/-! # Claim theorems -/

/-- **C10.** The NACK code mapping of the inbound disaster pipeline:
no error maps to `resultCode "200" / "OK" / note 000`; `Validation`,
`Profile` and `Duplicate` failures map to `"400" / "Bad Request"` with
notes `210`, `220`, `300` respectively; `Parsing` failures and every
other unexpected error map to `"500" / "Internal Server Error"` with
note `810`; and `createCnfDisInfoBuffer` copies exactly these fields into
the reply envelope. -/
theorem claim_C10_nack_code_mapping :
    ResponseUtils.mapErrorToResponseCode none = ⟨"200", "OK", "000"⟩ ∧
    ResponseUtils.mapErrorToResponseCode (some .validationError) =
      ⟨"400", "Bad Request", "210"⟩ ∧
    ResponseUtils.mapErrorToResponseCode (some .profileError) =
      ⟨"400", "Bad Request", "220"⟩ ∧
    ResponseUtils.mapErrorToResponseCode (some .duplicateMessageError) =
      ⟨"400", "Bad Request", "300"⟩ ∧
    ResponseUtils.mapErrorToResponseCode (some .parsingError) =
      ⟨"500", "Internal Server Error", "810"⟩ ∧
    ResponseUtils.mapErrorToResponseCode (some .otherError) =
      ⟨"500", "Internal Server Error", "810"⟩ ∧
    ∀ (tid : String) (seq : Nat) (e : Option ResponseUtils.DisasterError),
      ResponseUtils.createCnfDisInfo tid seq e =
        ⟨(ResponseUtils.mapErrorToResponseCode e).resultCode,
         (ResponseUtils.mapErrorToResponseCode e).resultText,
         tid, seq,
         (ResponseUtils.mapErrorToResponseCode e).noteCode⟩ := by
  refine ⟨rfl, rfl, rfl, rfl, rfl, rfl, fun tid seq e => rfl⟩

set_option maxRecDepth 8000 in
/-- **C8.** `calculateResponse` returns
`MD5(A1 ++ ":" ++ nonce).toUpperCase()` where
`A1 = MD5(destId ++ ":" ++ realm ++ ":" ++ password)` rendered as
uppercase hex by the code's `_md5` helper — i.e. the uppercase hex MD5 of
the hex MD5 of `"destId:realm:password"` (as the code computes A1,
uppercased) concatenated with `":"` and the nonce.  The second conjunct
evaluates the composition at concrete inputs, pinning the byte-level MD5
model. -/
theorem claim_C8_digest_response_formula :
    (∀ destId realm password nonce : String,
      AuthService.calculateResponse destId realm password nonce =
        AuthService.toUpperAscii (Md5.md5Hex (AuthService.stringBytes
          (AuthService.toUpperAscii (Md5.md5Hex (AuthService.stringBytes
            (destId ++ ":" ++ realm ++ ":" ++ password))) ++ ":" ++ nonce)))) ∧
    AuthService.calculateResponse "CS01" "ets" "secret" "abc123" =
      "95F7E75B669DFD3BCF56613EBDC1F511" := by
  constructor
  · intro destId realm password nonce
    rfl
  · decide

/-- **C7 counterexample.** The claim says a `DISASTER_RESULT` report
whose identifier exists only in `disaster_transmit_logs` rows belonging
to *other* subscribers is rejected.  With a table holding one row for
subscriber 2 and identifier `"A1"`, a submission of `"A1"` (by any
subscriber, e.g. subscriber 1, which was never a target) is accepted by
`isExistingIdentifier`, although no row for subscriber 1 exists. -/
theorem claim_C7_counterexample :
    Validator.isExistingIdentifier [⟨2, "A1"⟩] "A1" = true ∧
    Validator.existsForSubscriber [⟨2, "A1"⟩] 1 "A1" = false := by
  decide

/-- **C7 (amended).** `isExistingIdentifier` accepts a `DISASTER_RESULT`
report iff the payload's identifier exists in `disaster_transmit_logs`
for **any** subscriber; the query carries no `external_system_id`
condition, so being a target of the alert is not required of the
submitting subscriber. -/
theorem claim_C7_identifier_exists_any_subscriber
    (table : List Validator.DisasterTransmitRow) (identifier : String) :
    Validator.isExistingIdentifier table identifier = true ↔
      ∃ row ∈ table, row.identifier = identifier := by
  simp [Validator.isExistingIdentifier, Validator.existsByIdentifier,
    List.any_eq_true]

/-- **C1 (code evaluated at the failing input).** A
`report_transmit_logs` row inserted with `retry_count = 0` and
`report_sequence = 1` whose every attempt ends in an ACK timeout is a
fixed point of the worker's attempt-then-timeout cycle: after any number
of cycles it is still `PENDING` with `retry_count = 0` and
`report_sequence = 1` (never `FAILED`), and every attempt retransmits
with the same sequence 1.  The repository function
`incrementRetryCountAndReportSequence`, which would bump both counters as
the claim describes, exists (third conjunct) but is never called by any
module. -/
theorem claim_C1_retry_counters_never_incremented :
    (∀ n : Nat,
      (fun r => (ReliableTransmit.attemptThenFail ⟨true, true⟩ r).1)^[n]
        ⟨1, .deviceInfo, "KR.CS01_1700000000000", 0, 1, .pending⟩ =
        ⟨1, .deviceInfo, "KR.CS01_1700000000000", 0, 1, .pending⟩) ∧
    (ReliableTransmit.attemptThenFail ⟨true, true⟩
        ⟨1, .deviceInfo, "KR.CS01_1700000000000", 0, 1, .pending⟩).2 =
      [⟨"KR.CS01_1700000000000", 1⟩] ∧
    ReliableTransmit.incrementRetryCountAndReportSequence
        ⟨1, .deviceInfo, "KR.CS01_1700000000000", 0, 1, .pending⟩ =
      ⟨1, .deviceInfo, "KR.CS01_1700000000000", 1, 2, .pending⟩ := by
  refine ⟨fun n => Function.iterate_fixed ?_ n, by decide, by decide⟩
  decide

/-- **C3 counterexample.** The claim says that for *every* outbox row a
retry counter equal to `MAX_RETRIES` still allows one more send attempt.
The ES WebSocket sender refutes it: a `disaster_transmit_logs` row with
`retry_count = MAX_RETRIES = 3` and an active subscriber socket is marked
terminal `FAILED` with no emit. -/
theorem claim_C3_counterexample :
    EsReliableTransmit.processMessage true ⟨1, 7, MAX_RETRIES, .pending⟩ =
      (⟨1, 7, MAX_RETRIES, .failed⟩, []) := by
  decide

/-- **C3 (amended).** The boundary differs by side: the CS report sender
(`reliableTransmitService.processMessage`, guard
`retry_count > MAX_RETRIES`) still attempts a row whose counter equals
`MAX_RETRIES` and fails a row without send only beyond it, while the ES
WebSocket sender (guard `retry_count >= MAX_RETRIES`) marks a
non-terminal row terminal `FAILED` without further send already at
`retry_count = MAX_RETRIES`. -/
theorem claim_C3_retry_boundary_per_side (env : ReliableTransmit.CsEnv)
    (row : ReliableTransmit.RtRow) (conn : Bool)
    (dt : EsReliableTransmit.DtRow)
    (hat : row.retryCount = MAX_RETRIES)
    (htype : row.type = .deviceInfo)
    (hconn : env.connected = true)
    (hdt : dt.status = .pending)
    (hdtc : dt.retryCount ≥ MAX_RETRIES) :
    (ReliableTransmit.processMessage env row).2 =
      [⟨row.outboundId, row.reportSequence⟩] ∧
    (∀ row' : ReliableTransmit.RtRow, row'.retryCount > MAX_RETRIES →
      ReliableTransmit.processMessage env row' =
        ({ row' with status := .failed }, [])) ∧
    EsReliableTransmit.processMessage conn dt =
      ({ dt with status := .failed }, []) := by
  refine ⟨?_, ?_, ?_⟩
  · simp [ReliableTransmit.processMessage, hat, htype, hconn]
  · intro row' h
    simp [ReliableTransmit.processMessage, h]
  · simp [EsReliableTransmit.processMessage, hdt, hdtc]

/-- Witness for C3 (amended) at concrete inputs. -/
theorem claim_C3_retry_boundary_per_side_witness :
    (ReliableTransmit.processMessage ⟨true, true⟩
        ⟨1, .deviceInfo, "KR.X", MAX_RETRIES, 4, .pending⟩).2 =
      [⟨"KR.X", 4⟩] ∧
    (∀ row' : ReliableTransmit.RtRow, row'.retryCount > MAX_RETRIES →
      ReliableTransmit.processMessage ⟨true, true⟩ row' =
        ({ row' with status := .failed }, [])) ∧
    EsReliableTransmit.processMessage false ⟨1, 7, MAX_RETRIES, .pending⟩ =
      (⟨1, 7, MAX_RETRIES, .failed⟩, []) :=
  claim_C3_retry_boundary_per_side ⟨true, true⟩
    ⟨1, .deviceInfo, "KR.X", MAX_RETRIES, 4, .pending⟩ false
    ⟨1, 7, MAX_RETRIES, .pending⟩ rfl rfl rfl rfl (by decide)

/-- **C6.** The ES session manager keeps at most one active socket per
subscriber id (the map's keys stay pairwise distinct under both
operations); registering a new authenticated socket for an id that
already has one first logs a DISCONNECTED event for the old socket,
forcibly closes it and removes it from the map before installing the new
one (the event trace in exactly that order and the resulting map); and on
disconnect the entry is removed only when the currently mapped socket is
the very socket that disconnected — a mapped different socket leaves the
map unchanged. -/
theorem claim_C6_single_socket_per_subscriber
    (m : SessionManager.SMap) (hm : SessionManager.KeysNodup m)
    (newSock sock : SessionManager.Socket) :
    SessionManager.KeysNodup (SessionManager.addSocket m newSock).1 ∧
    SessionManager.KeysNodup (SessionManager.removeSocket m sock) ∧
    (∀ old, SessionManager.mapGet m newSock.systemId = some old →
      (SessionManager.addSocket m newSock).2 =
        [.logDisconnected newSock.systemId old.sockId,
         .forceClose old.sockId,
         .mapRemove newSock.systemId,
         .mapInstall newSock.systemId newSock.sockId,
         .logConnected newSock.systemId newSock.sockId] ∧
      (SessionManager.addSocket m newSock).1 =
        SessionManager.mapSet (SessionManager.mapDelete m newSock.systemId)
          newSock.systemId newSock) ∧
    SessionManager.mapGet (SessionManager.addSocket m newSock).1
      newSock.systemId = some newSock ∧
    (∀ s, SessionManager.mapGet m sock.systemId = some s → s ≠ sock →
      SessionManager.removeSocket m sock = m) ∧
    (SessionManager.mapGet m sock.systemId = some sock →
      SessionManager.removeSocket m sock =
        SessionManager.mapDelete m sock.systemId) := by
  refine ⟨SessionManager.keysNodup_addSocket newSock hm,
    SessionManager.keysNodup_removeSocket sock hm, ?_, ?_, ?_, ?_⟩
  · intro old hold
    unfold SessionManager.addSocket
    rw [hold]
    exact ⟨rfl, rfl⟩
  · unfold SessionManager.addSocket
    cases SessionManager.mapGet m newSock.systemId with
    | none => exact SessionManager.mapGet_mapSet_self _ _ _
    | some old => exact SessionManager.mapGet_mapSet_self _ _ _
  · intro s hs hne
    unfold SessionManager.removeSocket
    rw [hs]
    simp [hne]
  · intro hs
    unfold SessionManager.removeSocket
    rw [hs]
    simp

/-- Witness for C6 at a concrete map: subscriber 1 already holds socket
10; socket 11 authenticates for subscriber 1, socket 10 disconnects. -/
theorem claim_C6_single_socket_per_subscriber_witness :
    SessionManager.KeysNodup [(1, ⟨10, 1⟩)] ∧
    (SessionManager.KeysNodup
        (SessionManager.addSocket [(1, ⟨10, 1⟩)] ⟨11, 1⟩).1 ∧
      SessionManager.KeysNodup
        (SessionManager.removeSocket [(1, ⟨10, 1⟩)] ⟨10, 1⟩) ∧
      (∀ old, SessionManager.mapGet [(1, ⟨10, 1⟩)] 1 = some old →
        (SessionManager.addSocket [(1, ⟨10, 1⟩)] ⟨11, 1⟩).2 =
          [.logDisconnected 1 old.sockId, .forceClose old.sockId,
           .mapRemove 1, .mapInstall 1 11, .logConnected 1 11] ∧
        (SessionManager.addSocket [(1, ⟨10, 1⟩)] ⟨11, 1⟩).1 =
          SessionManager.mapSet
            (SessionManager.mapDelete [(1, ⟨10, 1⟩)] 1) 1 ⟨11, 1⟩) ∧
      SessionManager.mapGet (SessionManager.addSocket [(1, ⟨10, 1⟩)] ⟨11, 1⟩).1 1 =
        some ⟨11, 1⟩ ∧
      (∀ s, SessionManager.mapGet [(1, ⟨10, 1⟩)] 1 = some s → s ≠ ⟨10, 1⟩ →
        SessionManager.removeSocket [(1, ⟨10, 1⟩)] ⟨10, 1⟩ = [(1, ⟨10, 1⟩)]) ∧
      (SessionManager.mapGet [(1, ⟨10, 1⟩)] 1 = some ⟨10, 1⟩ →
        SessionManager.removeSocket [(1, ⟨10, 1⟩)] ⟨10, 1⟩ =
          SessionManager.mapDelete [(1, ⟨10, 1⟩)] 1)) :=
  ⟨by unfold SessionManager.KeysNodup; decide,
   claim_C6_single_socket_per_subscriber [(1, ⟨10, 1⟩)]
     (by unfold SessionManager.KeysNodup; decide) ⟨11, 1⟩ ⟨10, 1⟩⟩

/-- **C2 (code evaluated at the failing input).** On an empty CS
database, a `report.external` delivery whose inbox-SUCCESS update fails
(`atInboxUpdate`) leaves the `report_transmit_logs` outbox row committed
— `reportTransmitLogRepository.create` runs on the pool, outside the
transaction — while the `mq_receive_logs` row stays `PENDING` and the
message is republished for retry: the two writes are *not* rolled back
together on the CS side.  On the ES side the same failure point leaves no
`disaster_transmit_logs` row (both writes are on the transaction client
and roll back together), as the claim describes. -/
theorem claim_C2_outbox_insert_outside_transaction :
    (Consumers.consumeReport ⟨0, [], []⟩ ⟨"m1", 0, some ⟨"DEVICE_INFO", "sysA"⟩⟩
        "KR.CS01_1" .atInboxUpdate).1.rtRows =
      [⟨0, "DEVICE_INFO", "KR.CS01_1", "sysA", "m1"⟩] ∧
    (Consumers.consumeReport ⟨0, [], []⟩ ⟨"m1", 0, some ⟨"DEVICE_INFO", "sysA"⟩⟩
        "KR.CS01_1" .atInboxUpdate).1.mqRows =
      [⟨0, "m1", .pending, none⟩] ∧
    (Consumers.consumeReport ⟨0, [], []⟩ ⟨"m1", 0, some ⟨"DEVICE_INFO", "sysA"⟩⟩
        "KR.CS01_1" .atInboxUpdate).2.1 = .retryPublish 1 ∧
    (Consumers.consumeDisaster ⟨0, [], [⟨5, ["HTW"], true⟩], []⟩
        ⟨"d1", 0, some ⟨"A1", "HTW"⟩⟩ .atInboxUpdate).1.dtRows = [] ∧
    (Consumers.consumeDisaster ⟨0, [], [⟨5, ["HTW"], true⟩], []⟩
        ⟨"d1", 0, some ⟨"A1", "HTW"⟩⟩ .atInboxUpdate).1.mqRows =
      [⟨0, "d1", .pending, none⟩] := by
  decide

/-- **C9.** Whenever the inbox insert itself succeeds, each broker
delivery a consumer handles — whatever its `x-retry-count` header, its
payload, or the later failure point — first appends a fresh
`mq_receive_logs` row carrying the delivery's raw content (the first
database operation of the run is that insert, and the id/content
projection of the table gains exactly that row at the end, on both the CS
and the ES consumer); the inbox is not deduplicated: handling any list of
deliveries, identical payloads included, grows the table by exactly the
number of deliveries. -/
theorem claim_C9_inbox_row_per_delivery
    (db : Consumers.CsDb) (msg : Consumers.Delivery) (oid : String)
    (fail : Consumers.FailPoint) (edb : Consumers.EsDb)
    (emsg : Consumers.EsDelivery) (efail : Consumers.EsFailPoint)
    (hf : fail ≠ .atInboxInsert) (hef : efail ≠ .atInboxInsert) :
    (Consumers.consumeReport db msg oid fail).1.mqRows.map Consumers.mqKey =
      db.mqRows.map Consumers.mqKey ++ [(db.nextMqId, msg.content)] ∧
    (Consumers.consumeReport db msg oid fail).2.2.head? =
      some (.mqInsert msg.content) ∧
    (Consumers.consumeDisaster edb emsg efail).1.mqRows.map Consumers.mqKey =
      edb.mqRows.map Consumers.mqKey ++ [(edb.nextMqId, emsg.content)] ∧
    (Consumers.consumeDisaster edb emsg efail).2.2.head? =
      some (.mqInsert emsg.content) ∧
    (∀ msgs : List Consumers.Delivery,
      (msgs.foldl (fun d m => (Consumers.consumeReport d m oid .noFailure).1)
          db).mqRows.length = db.mqRows.length + msgs.length) := by
  obtain ⟨hcs1, hcs2⟩ := Consumers.consumeReport_appends_inbox_row db msg oid fail hf
  obtain ⟨hes1, hes2⟩ := Consumers.consumeDisaster_appends_inbox_row edb emsg efail hef
  exact ⟨hcs1, hcs2, hes1, hes2,
    fun msgs => Consumers.consumeReport_fold_length oid msgs db⟩

/-- Witness for C9 at a concrete delivery on each side. -/
theorem claim_C9_inbox_row_per_delivery_witness :
    (Consumers.consumeReport ⟨0, [], []⟩ ⟨"m1", 2, some ⟨"DEVICE_INFO", "sysA"⟩⟩
        "KR.CS01_1" .noFailure).1.mqRows.map Consumers.mqKey =
      ([] : List Consumers.MqRow).map Consumers.mqKey ++ [(0, "m1")] ∧
    (Consumers.consumeReport ⟨0, [], []⟩ ⟨"m1", 2, some ⟨"DEVICE_INFO", "sysA"⟩⟩
        "KR.CS01_1" .noFailure).2.2.head? = some (.mqInsert "m1") ∧
    (Consumers.consumeDisaster ⟨0, [], [], []⟩ ⟨"d1", 0, none⟩
        .noFailure).1.mqRows.map Consumers.mqKey =
      ([] : List Consumers.MqRow).map Consumers.mqKey ++ [(0, "d1")] ∧
    (Consumers.consumeDisaster ⟨0, [], [], []⟩ ⟨"d1", 0, none⟩
        .noFailure).2.2.head? = some (.mqInsert "d1") ∧
    (∀ msgs : List Consumers.Delivery,
      (msgs.foldl
          (fun d m => (Consumers.consumeReport d m "KR.CS01_1" .noFailure).1)
          ⟨0, [], []⟩).mqRows.length =
        (Consumers.CsDb.mk 0 [] []).mqRows.length + msgs.length) :=
  claim_C9_inbox_row_per_delivery ⟨0, [], []⟩
    ⟨"m1", 2, some ⟨"DEVICE_INFO", "sysA"⟩⟩ "KR.CS01_1" .noFailure
    ⟨0, [], [], []⟩ ⟨"d1", 0, none⟩ .noFailure (by decide) (by decide)

/-- **C4.** For an inbound `ETS_NFY_DIS_INFO` whose envelope parses:
(unknown event code) when the CAP alert is present with all required
fields but its event code is outside the allowlist and the message is not
a duplicate, the reply is `ETS_CNF_DIS_INFO` with `resultCode 400` and
note `220`, the `tcp_receive_logs` table gains exactly one row for the
message with status `FAILED`, and `disaster_publish_logs` is unchanged
(so no new fan-out row exists); (duplicate) when the
`(inbound_id, inbound_seq)` pair was already received, the reply carries
`resultCode 400` and note `300`, the database is returned unchanged — no
new row in any table — and the publish worker's next tick publishes
exactly what it would have published before. -/
theorem claim_C4_unknown_event_code_and_duplicate
    (db : DisasterHandler.AlertDb) (env : DisasterHandler.Envelope)
    (a : DisasterHandler.Alert) (ident snd snt ec : String)
    (env2 : DisasterHandler.Envelope)
    (hfresh : ∀ r ∈ db.tcpRows, r.id ≠ db.nextTcpId)
    (halert : env.alert = some a)
    (hid : a.identifier = some ident) (hsn : a.sender = some snd)
    (hst : a.sent = some snt) (hec : a.eventCodeValue = some ec)
    (hbad : DisasterHandler.VALID_EVENT_CODES.contains ec = false)
    (hdup : DisasterHandler.isDuplicate db.tcpRows env.transMsgId
      env.transMsgSeq = false)
    (hdup2 : DisasterHandler.isDuplicate db.tcpRows env2.transMsgId
      env2.transMsgSeq = true) :
    (DisasterHandler.handleDisasterInfo db (some env)).2 =
      some ⟨"400", "Bad Request", env.transMsgId, env.transMsgSeq, "220"⟩ ∧
    (DisasterHandler.handleDisasterInfo db (some env)).1.tcpRows =
      db.tcpRows ++
        [⟨db.nextTcpId, env.transMsgId, env.transMsgSeq, .failed⟩] ∧
    (DisasterHandler.handleDisasterInfo db (some env)).1.dplRows =
      db.dplRows ∧
    DisasterHandler.handleDisasterInfo db (some env2) =
      (db, some ⟨"400", "Bad Request", env2.transMsgId, env2.transMsgSeq,
        "300"⟩) ∧
    DisasterHandler.disasterPublishWorkerPublishes
        (DisasterHandler.handleDisasterInfo db (some env2)).1 =
      DisasterHandler.disasterPublishWorkerPublishes db := by
  have hdupcase : DisasterHandler.handleDisasterInfo db (some env2) =
      (db, some ⟨"400", "Bad Request", env2.transMsgId, env2.transMsgSeq,
        "300"⟩) := by
    simp [DisasterHandler.handleDisasterInfo, hdup2,
      ResponseUtils.createCnfDisInfo, ResponseUtils.mapErrorToResponseCode]
  have hmain : DisasterHandler.handleDisasterInfo db (some env) =
      ({ db with
          nextTcpId := db.nextTcpId + 1,
          tcpRows := db.tcpRows ++
            [⟨db.nextTcpId, env.transMsgId, env.transMsgSeq, .failed⟩] },
       some ⟨"400", "Bad Request", env.transMsgId, env.transMsgSeq, "220"⟩) := by
    simp only [DisasterHandler.handleDisasterInfo, hdup, Bool.false_eq_true,
      if_false, halert, hid, hsn, hst, hec, hbad,
      ResponseUtils.createCnfDisInfo, ResponseUtils.mapErrorToResponseCode]
    rw [DisasterHandler.setTcpStatus_append_fresh db.tcpRows
      ⟨db.nextTcpId, env.transMsgId, env.transMsgSeq, .pending⟩ .failed hfresh]
  refine ⟨?_, ?_, ?_, hdupcase, ?_⟩
  · rw [hmain]
  · rw [hmain]
  · rw [hmain]
  · rw [hdupcase]

/-- Witness for C4: one prior successfully processed message `("T1", 1)`;
the unknown-code message is `("T2", 1)` with event code `"XYZ"`; the
duplicate is a resend of `("T1", 1)`. -/
theorem claim_C4_unknown_event_code_and_duplicate_witness :
    (DisasterHandler.handleDisasterInfo
        ⟨1, [⟨0, "T1", 1, .success⟩], 1, []⟩
        (some ⟨"T2", 1, some ⟨some "A1", some "S1", some "20240101", some "XYZ"⟩⟩)).2 =
      some ⟨"400", "Bad Request", "T2", 1, "220"⟩ ∧
    (DisasterHandler.handleDisasterInfo
        ⟨1, [⟨0, "T1", 1, .success⟩], 1, []⟩
        (some ⟨"T2", 1, some ⟨some "A1", some "S1", some "20240101", some "XYZ"⟩⟩)).1.tcpRows =
      [⟨0, "T1", 1, .success⟩] ++ [⟨1, "T2", 1, .failed⟩] ∧
    (DisasterHandler.handleDisasterInfo
        ⟨1, [⟨0, "T1", 1, .success⟩], 1, []⟩
        (some ⟨"T2", 1, some ⟨some "A1", some "S1", some "20240101", some "XYZ"⟩⟩)).1.dplRows =
      [] ∧
    DisasterHandler.handleDisasterInfo ⟨1, [⟨0, "T1", 1, .success⟩], 1, []⟩
        (some ⟨"T1", 1, none⟩) =
      (⟨1, [⟨0, "T1", 1, .success⟩], 1, []⟩,
       some ⟨"400", "Bad Request", "T1", 1, "300"⟩) ∧
    DisasterHandler.disasterPublishWorkerPublishes
        (DisasterHandler.handleDisasterInfo ⟨1, [⟨0, "T1", 1, .success⟩], 1, []⟩
          (some ⟨"T1", 1, none⟩)).1 =
      DisasterHandler.disasterPublishWorkerPublishes
        ⟨1, [⟨0, "T1", 1, .success⟩], 1, []⟩ :=
  claim_C4_unknown_event_code_and_duplicate
    ⟨1, [⟨0, "T1", 1, .success⟩], 1, []⟩
    ⟨"T2", 1, some ⟨some "A1", some "S1", some "20240101", some "XYZ"⟩⟩
    ⟨some "A1", some "S1", some "20240101", some "XYZ"⟩
    "A1" "S1" "20240101" "XYZ" ⟨"T1", 1, none⟩
    (by decide) rfl rfl rfl rfl rfl (by decide) (by decide) (by decide)

/-- **C5.** Framer∘deframer roundtrip: for every 32-bit message id, data
format value and magic number, and every body of length at most
`MAX_BODY_LENGTH`, feeding the buffer produced by `buildMessageBuffer`
(16-byte big-endian header with the configured magic number and the body
length, then the body) into a fresh `ProtocolParser` emits exactly one
message whose header fields and body bytes equal the originals, leaving
the parser back in its initial state. -/
theorem claim_C5_frame_deframe_roundtrip
    (magic dataFormat messageId : Nat) (body : List Nat)
    (hmagic : magic < 4294967296) (hfmt : dataFormat < 4294967296)
    (hmsg : messageId < 4294967296)
    (hlen : body.length ≤ MAX_BODY_LENGTH) :
    Protocol.transform magic Protocol.initialState
        (Protocol.buildMessageBuffer magic dataFormat messageId body) =
      ([⟨⟨messageId, dataFormat, magic, body.length⟩, body⟩],
       Protocol.initialState) := by
  unfold Protocol.transform
  simp only [Protocol.initialState, List.nil_append]
  exact Protocol.transformLoop_frame magic dataFormat messageId body []
    _ hmagic hfmt hmsg hlen
    (by simp [Protocol.buildMessageBuffer, Protocol.writeUInt32BE])

/-- Witness for C5: `ETS_NFY_DIS_INFO` (`0xFFEE3020`), data format 1,
magic `0x12345678`, three body bytes. -/
theorem claim_C5_frame_deframe_roundtrip_witness :
    305419896 < 4294967296 ∧ 1 < 4294967296 ∧ 4293734432 < 4294967296 ∧
    ([60, 100, 97] : List Nat).length ≤ MAX_BODY_LENGTH ∧
    Protocol.transform 305419896 Protocol.initialState
        (Protocol.buildMessageBuffer 305419896 1 4293734432 [60, 100, 97]) =
      ([⟨⟨4293734432, 1, 305419896, 3⟩, [60, 100, 97]⟩],
       Protocol.initialState) :=
  ⟨by decide, by decide, by decide, by decide,
   claim_C5_frame_deframe_roundtrip 305419896 1 4293734432 [60, 100, 97]
     (by decide) (by decide) (by decide) (by decide)⟩

end Bonghwa
